import Mathlib

set_option maxRecDepth 4000

/-!
Shallow embedding of the subscription/entitlement engine of the
affirm-dreams backend: the RevenueCat webhook handler
(`src/routes/revenuecatWebhook.ts`) and the subscription routes
(`src/routes/subscription.ts`), together with the Mongo persistence layer
they drive (`models/Subscription.ts`, `models/Payment.ts`).

Modelling conventions:
* JavaScript epoch-millisecond timestamps are `Int`; a `Date` value stored
  in a document is `Option Int` (`none` = field absent).
* A JS `string | undefined` input field is `Option String`; JS truthiness
  of such a value (`!x` guards) is `jsTruthyStr` (`none` and `""` falsy).
* A JS `number`-typed body field that may be missing, non-numeric or
  non-finite is `Option Int` (`none` covers `typeof x !== "number"` and
  `!Number.isFinite(x)`; any finite value is an `Int`).
* Mongoose update semantics (the repo uses a current mongoose, see the
  source comment "do NOT write null here, leave undefined when no expiry"):
  a plain-object update document is applied as `$set` of its keys, and
  keys whose value is `undefined` are stripped from the update before it
  is sent, so they leave the stored field unchanged.  On an upserting
  update with no matched document, the inserted document is built from the
  filter equalities plus the `$setOnInsert` and `$set` fields, with schema
  defaults for the rest.  In contrast, assigning `undefined` to a field of
  a fetched document and calling `save()` unsets that field.
* `updateOne` / `findOneAndUpdate` match the first document satisfying the
  filter; collections are lists of documents.
* The Mongo `_id` of a payment row is represented by its `transactionId`
  (globally unique natural key), used only for `latestPaymentId`.
* The webhook shared-secret check and the Clerk authentication middleware
  are outside the modelled handlers: handlers receive the verified
  `userId` (for client routes) or the raw event (for the webhook).
-/

namespace AffirmDreams

/-- JS `String.prototype.startsWith` on exploded character lists. -/
def startsWithChars : List Char → List Char → Bool
  | [], _ => true
  | _ :: _, [] => false
  | p :: ps, c :: cs => p == c && startsWithChars ps cs

/-- JS `String.prototype.includes` on exploded character lists. -/
def containsChars : List Char → List Char → Bool
  | [], pat => startsWithChars pat []
  | c :: cs, pat => startsWithChars pat (c :: cs) || containsChars cs pat

/-- JS `s.includes(pat)`. -/
def strContains (s pat : String) : Bool :=
  containsChars s.data pat.data

/-- JS truthiness of a `string | undefined` value (`undefined` and `""` are falsy). -/
def jsTruthyStr : Option String → Bool
  | none => false
  | some s => !(s == "")

/-- JS `s.toLowerCase()` (ASCII, which covers every probe string used). -/
def toLowerStr (s : String) : String :=
  String.mk (s.data.map Char.toLower)

/-- JS `s.toUpperCase()` (ASCII). -/
def toUpperStr (s : String) : String :=
  String.mk (s.data.map Char.toUpper)

/-- `Plan` union type from `models/Subscription.ts`. -/
inductive Plan
  | free
  | monthly
  | yearly
  | lifetime
deriving DecidableEq

/-- `SubStatus` union type from `models/Subscription.ts`. -/
inductive SubStatus
  | active
  | inactive
  | canceled
  | expired
deriving DecidableEq

/-- `SubSource` union type from `models/Subscription.ts`. -/
inductive SubSource
  | google_play
  | app_store
  | stripe
  | admin
deriving DecidableEq

/-- `planFromProductId` (identical in `subscription.ts` and
`revenuecatWebhook.ts`): probe the product id for plan markers, in source
order `.monthly`, `.yearly`, `.lifetime`; missing, empty or unmarked
product ids give `free`. -/
def planFromProductId (productId : Option String) : Plan :=
  match productId with
  | none => .free
  | some s =>
    if s = "" then .free
    else if strContains s ".monthly" then .monthly
    else if strContains s ".yearly" then .yearly
    else if strContains s ".lifetime" then .lifetime
    else .free

/-- `providerFromStore` from `revenuecatWebhook.ts`: case-insensitive
substring probing of the store name.  The result is the provider string
stored in the payment ledger. -/
def providerFromStore (store : Option String) : String :=
  let s := toLowerStr (store.getD "")
  if strContains s "play" || strContains s "google" then "google_play"
  else if strContains s "app_store" || strContains s "apple" || strContains s "ios" then
    "app_store"
  else if strContains s "stripe" then "stripe"
  else "promo"

/-- The `source` computation of the webhook handler (nested ternaries over
the provider string). -/
def subSourceFromProviderStr (provider : String) : SubSource :=
  if provider = "google_play" then .google_play
  else if provider = "app_store" then .app_store
  else if provider = "stripe" then .stripe
  else .admin

/-- `subSourceFromProvider` from `subscription.ts` (strict equality against
the provider strings of the activate body). -/
def subSourceFromProvider (provider : Option String) : SubSource :=
  if provider = some "google_play" then .google_play
  else if provider = some "app_store" then .app_store
  else if provider = some "stripe" then .stripe
  else .admin

/-- The webhook's platform ternary: `provider === "app_store" ? "ios" :
provider === "google_play" ? "android" : "web"`. -/
def webhookPlatformOf (provider : String) : String :=
  if provider = "app_store" then "ios"
  else if provider = "google_play" then "android"
  else "web"

/-- `isPurchaseLike` from the webhook handler. -/
def isPurchaseLikeType (ty : String) : Bool :=
  ty = "INITIAL_PURCHASE" || ty = "RENEWAL" || ty = "NON_RENEWING_PURCHASE" ||
    ty = "UNCANCELLATION" || ty = "PRODUCT_CHANGE"

/-- `const renewsAt = expirationAtMs ? new Date(expirationAtMs) : undefined`
(`0` is falsy in JS, so a zero expiry leaves `renewsAt` undefined). -/
def renewsAtOf (expirationAtMs : Option Int) : Option Int :=
  match expirationAtMs with
  | some v => if v = 0 then none else some v
  | none => none

/-- `const startedAt = purchasedAtMs ? new Date(purchasedAtMs) : now`. -/
def startedAtOf (purchasedAtMs : Option Int) (now : Int) : Int :=
  match purchasedAtMs with
  | some v => if v = 0 then now else v
  | none => now

/-- The `event` object of a RevenueCat webhook request body
(`req.body.event`), with the fields the handler extracts. -/
structure RCEvent where
  type : String
  app_user_id : Option String
  product_id : Option String
  transaction_id : Option String
  original_transaction_id : Option String
  store : Option String
  currency : Option String
  cancel_reason : Option String
  expiration_at_ms : Option Int
  purchased_at_ms : Option Int
deriving DecidableEq

/-- The `/subscription/activate` request body (`ActivateBody` in
`subscription.ts`).  Runtime presence of each field is what the handler
checks, so every field is optional here. -/
structure ActivateBody where
  plan : Option Plan
  periodEnd : Option Int
  amountCents : Option Int
  currency : Option String
  productId : Option String
  transactionId : Option String
  platform : Option String
  provider : Option String
deriving DecidableEq

/-- The `rawPayload` column of the payment ledger: an opaque copy of the
triggering request body (`req.body` for the webhook, `body` for activate;
the older activate wrote `null`). -/
inductive RawPayload
  | webhook (ev : RCEvent)
  | activate (b : ActivateBody)
  | nullPayload
deriving DecidableEq

/-- A document of the `payments` collection (`models/Payment.ts`), as
written by the two routes.  `platform` and `provider` are stored as the
strings the routes produce. -/
structure PaymentRecord where
  userId : String
  platform : String
  provider : String
  productId : String
  transactionId : String
  originalTransactionId : Option String
  amountCents : Int
  currency : String
  purchasedAt : Int
  expiresAt : Option Int
  rawPayload : RawPayload
deriving DecidableEq

/-- A document of the `subscriptions` collection (`models/Subscription.ts`). -/
structure SubRow where
  userId : String
  plan : Plan
  status : SubStatus
  source : SubSource
  startedAt : Option Int
  renewsAt : Option Int
  canceledAt : Option Int
  latestPaymentId : Option String
deriving DecidableEq

/-- The durable datastore: both collections. -/
structure DB where
  subs : List SubRow
  payments : List PaymentRecord
deriving DecidableEq

/-- A mongoose update document for a subscription row, after stripping:
`none` means the key was absent from the update object or had value
`undefined`, so the stored field is left untouched.  (`userId` is always
the filter value and is re-set to the same value.) -/
structure SubUpdate where
  plan : Option Plan
  status : Option SubStatus
  source : Option SubSource
  startedAt : Option Int
  renewsAt : Option Int
  canceledAt : Option Int
  latestPaymentId : Option String
deriving DecidableEq

/-- Apply a (stripped) `$set` update document to a matched subscription row. -/
def applySubSet (r : SubRow) (u : SubUpdate) : SubRow :=
  { userId := r.userId
    plan := u.plan.getD r.plan
    status := u.status.getD r.status
    source := u.source.getD r.source
    startedAt := match u.startedAt with | some v => some v | none => r.startedAt
    renewsAt := match u.renewsAt with | some v => some v | none => r.renewsAt
    canceledAt := match u.canceledAt with | some v => some v | none => r.canceledAt
    latestPaymentId :=
      match u.latestPaymentId with | some v => some v | none => r.latestPaymentId }

/-- Document inserted by an upserting subscription update that matched
nothing: filter `{userId}` plus the update fields, with the schema
defaults of `models/Subscription.ts` (`plan: "free"`, `status: "inactive"`,
`source: "admin"`) for required fields the update left out. -/
def subInsertDoc (uid : String) (u : SubUpdate) : SubRow :=
  { userId := uid
    plan := u.plan.getD .free
    status := u.status.getD .inactive
    source := u.source.getD .admin
    startedAt := u.startedAt
    renewsAt := u.renewsAt
    canceledAt := u.canceledAt
    latestPaymentId := u.latestPaymentId }

/-- `SubscriptionModel.findOneAndUpdate({userId}, update, {upsert: true,
new: true})`: update the first row matching `userId`, or append an
inserted document; returns the new document and the new collection. -/
def findOneAndUpdateSub : List SubRow → String → SubUpdate → SubRow × List SubRow
  | [], uid, u =>
    let d := subInsertDoc uid u
    (d, [d])
  | r :: rs, uid, u =>
    if r.userId = uid then
      let d := applySubSet r u
      (d, d :: rs)
    else
      let p := findOneAndUpdateSub rs uid u
      (p.1, r :: p.2)

/-- `SubscriptionModel.findOne({userId})`. -/
def findSub : List SubRow → String → Option SubRow
  | [], _ => none
  | r :: rs, uid => if r.userId = uid then some r else findSub rs uid

/-- `subDoc.save()` on a document fetched by `findOne({userId})` and then
mutated: replace the first row with that `userId`. -/
def saveSub : List SubRow → String → SubRow → List SubRow
  | [], _, _ => []
  | r :: rs, uid, d => if r.userId = uid then d :: rs else r :: saveSub rs uid d

/-- `PaymentModel.findOne({transactionId})`. -/
def findPay : List PaymentRecord → String → Option PaymentRecord
  | [], _ => none
  | p :: ps, tid => if p.transactionId = tid then some p else findPay ps tid

/-- Whether some ledger row carries this `transactionId`. -/
def hasPay : List PaymentRecord → String → Bool
  | [], _ => false
  | p :: ps, tid => if p.transactionId = tid then true else hasPay ps tid

/-- Number of ledger rows carrying this `transactionId`. -/
def countPay : List PaymentRecord → String → Nat
  | [], _ => 0
  | p :: ps, tid => (if p.transactionId = tid then 1 else 0) + countPay ps tid

/-- The webhook's `PaymentModel.updateOne({transactionId}, {$setOnInsert:
...}, {upsert: true})`: with only `$setOnInsert`, a matched document is
left untouched and an unmatched filter inserts `rec`. -/
def paymentUpsertInsertOnly (ps : List PaymentRecord) (tid : String)
    (rec : PaymentRecord) : List PaymentRecord :=
  if hasPay ps tid then ps else ps ++ [rec]

/-- The `$setOnInsert` (identity) and `$set` (mutable) halves of the
activate route's `PaymentModel.updateOne({transactionId}, ...)`. -/
structure ActivateLedgerWrite where
  userId : String
  platform : String
  provider : String
  productId : String
  transactionId : String
  amountCents : Int
  currency : String
  purchasedAt : Int
  expiresAt : Option Int
  raw : RawPayload
deriving DecidableEq

/-- The `$set` half applied to a matched ledger row: `amountCents`,
`currency`, `purchasedAt` and `rawPayload` always; `expiresAt` only when
its value is defined (an `undefined` value is stripped). -/
def applyActivateSet (p : PaymentRecord) (w : ActivateLedgerWrite) : PaymentRecord :=
  { p with
    amountCents := w.amountCents
    currency := w.currency
    purchasedAt := w.purchasedAt
    expiresAt := match w.expiresAt with | some v => some v | none => p.expiresAt
    rawPayload := w.raw }

/-- Document inserted by the activate ledger upsert when nothing matched:
filter plus `$setOnInsert` plus `$set`. -/
def activateInsertDoc (w : ActivateLedgerWrite) : PaymentRecord :=
  { userId := w.userId
    platform := w.platform
    provider := w.provider
    productId := w.productId
    transactionId := w.transactionId
    originalTransactionId := none
    amountCents := w.amountCents
    currency := w.currency
    purchasedAt := w.purchasedAt
    expiresAt := w.expiresAt
    rawPayload := w.raw }

/-- The activate route's ledger upsert. -/
def activatePayUpsert : List PaymentRecord → ActivateLedgerWrite → List PaymentRecord
  | [], w => [activateInsertDoc w]
  | p :: ps, w =>
    if p.transactionId = w.transactionId then applyActivateSet p w :: ps
    else p :: activatePayUpsert ps w

/-- Response discriminator of the webhook handler. -/
inductive WebhookOutcome
  | missingEvent
  | skipped
  | purchased
  | revoked
  | canceledAck
  | expiredAck
  | ignored (ty : String)
deriving DecidableEq

/-- The `source` value computed by the webhook handler for the event. -/
def webhookSource (ev : RCEvent) : SubSource :=
  subSourceFromProviderStr (providerFromStore ev.store)

/-- The ledger document the webhook's `$setOnInsert` would insert for a
purchase-like event (`productId ?? "unknown"`, `currency ?? "USD"`,
`amountCents: 0`). -/
def webhookLedgerDoc (ev : RCEvent) (uid tid : String) (now : Int) : PaymentRecord :=
  let provider := providerFromStore ev.store
  { userId := uid
    platform := webhookPlatformOf provider
    provider := provider
    productId := ev.product_id.getD "unknown"
    transactionId := tid
    originalTransactionId := ev.original_transaction_id
    amountCents := 0
    currency := ev.currency.getD "USD"
    purchasedAt := startedAtOf ev.purchased_at_ms now
    expiresAt := renewsAtOf ev.expiration_at_ms
    rawPayload := .webhook ev }

/-- The subscription update document of the purchase-like branch:
`{plan, status: "active", source, startedAt, renewsAt, canceledAt:
undefined}` after stripping. -/
def webhookPurchaseUpd (ev : RCEvent) (now : Int) : SubUpdate :=
  { plan := some (planFromProductId ev.product_id)
    status := some .active
    source := some (webhookSource ev)
    startedAt := some (startedAtOf ev.purchased_at_ms now)
    renewsAt := renewsAtOf ev.expiration_at_ms
    canceledAt := none
    latestPaymentId := none }

/-- Purchase-like branch of the webhook: ledger upsert when a truthy
`transaction_id` is present, then the subscription upsert. -/
def webhookPurchaseStep (db : DB) (now : Int) (ev : RCEvent) (uid : String) : DB :=
  let payments' :=
    match ev.transaction_id with
    | some tid =>
      if tid = "" then db.payments
      else paymentUpsertInsertOnly db.payments tid (webhookLedgerDoc ev uid tid now)
    | none => db.payments
  { subs := (findOneAndUpdateSub db.subs uid (webhookPurchaseUpd ev now)).2
    payments := payments' }

/-- The subscription update of the refund-like branch (`CANCELLATION` with
`cancel_reason === "CUSTOMER_SUPPORT"`): `{plan: "free", status:
"inactive", source, renewsAt: undefined, canceledAt: now}`. -/
def webhookRefundUpd (ev : RCEvent) (now : Int) : SubUpdate :=
  { plan := some .free
    status := some .inactive
    source := some (webhookSource ev)
    startedAt := none
    renewsAt := none
    canceledAt := some now
    latestPaymentId := none }

/-- Refund-like branch of the webhook. -/
def webhookRefundStep (db : DB) (now : Int) (ev : RCEvent) (uid : String) : DB :=
  { db with subs := (findOneAndUpdateSub db.subs uid (webhookRefundUpd ev now)).2 }

/-- The subscription update of the plain cancellation branch:
`{plan, status: "canceled", source, renewsAt, canceledAt: now}` where
`plan` is derived from the event's `product_id` and `renewsAt` is the
(truthy) event expiry. -/
def webhookCancelUpd (ev : RCEvent) (now : Int) : SubUpdate :=
  { plan := some (planFromProductId ev.product_id)
    status := some .canceled
    source := some (webhookSource ev)
    startedAt := none
    renewsAt := renewsAtOf ev.expiration_at_ms
    canceledAt := some now
    latestPaymentId := none }

/-- Plain cancellation branch of the webhook. -/
def webhookCancelStep (db : DB) (now : Int) (ev : RCEvent) (uid : String) : DB :=
  { db with subs := (findOneAndUpdateSub db.subs uid (webhookCancelUpd ev now)).2 }

/-- The subscription update of the expiration branch: `{plan: "free",
status: "expired", source, renewsAt: undefined, canceledAt: now}`. -/
def webhookExpireUpd (ev : RCEvent) (now : Int) : SubUpdate :=
  { plan := some .free
    status := some .expired
    source := some (webhookSource ev)
    startedAt := none
    renewsAt := none
    canceledAt := some now
    latestPaymentId := none }

/-- Expiration branch of the webhook. -/
def webhookExpireStep (db : DB) (now : Int) (ev : RCEvent) (uid : String) : DB :=
  { db with subs := (findOneAndUpdateSub db.subs uid (webhookExpireUpd ev now)).2 }

/-- `POST /webhooks/revenuecat` (`revenuecatWebhook.ts`), after the
shared-secret check: reject a missing/typeless event, skip a missing
`app_user_id`, then dispatch on the classified event type. -/
def revenuecatWebhook (db : DB) (now : Int) (body : Option RCEvent) :
    WebhookOutcome × DB :=
  match body with
  | none => (.missingEvent, db)
  | some ev =>
    if ev.type = "" then (.missingEvent, db)
    else
      match ev.app_user_id with
      | none => (.skipped, db)
      | some uid =>
        if uid = "" then (.skipped, db)
        else if isPurchaseLikeType ev.type then
          (.purchased, webhookPurchaseStep db now ev uid)
        else if ev.type == "CANCELLATION" && ev.cancel_reason == some "CUSTOMER_SUPPORT" then
          (.revoked, webhookRefundStep db now ev uid)
        else if ev.type = "CANCELLATION" then
          (.canceledAck, webhookCancelStep db now ev uid)
        else if ev.type = "EXPIRATION" then
          (.expiredAck, webhookExpireStep db now ev uid)
        else (.ignored ev.type, db)

/-- `ClientSubscription`, the client-facing entitlement shape. -/
structure ClientSubscription where
  plan : Plan
  status : SubStatus
  autoRenew : Bool
  periodEnd : Option Int
  storageLimitGb : Option Int
deriving DecidableEq

/-- `toClientShape` from `subscription.ts`: the entitlement projection. -/
def toClientShape : Option SubRow → ClientSubscription
  | none =>
    { plan := .free
      status := .inactive
      autoRenew := false
      periodEnd := none
      storageLimitGb := none }
  | some d =>
    let isLifetime := d.plan == Plan.lifetime
    { plan := d.plan
      status := d.status
      autoRenew := !isLifetime && d.plan != Plan.free && d.status == SubStatus.active
      periodEnd := d.renewsAt
      storageLimitGb := if isLifetime then some 10 else none }

/-- Result discriminator of the activate route. -/
inductive ActivateResult
  | badRequest (msg : String)
  | ok (payload : ClientSubscription)
deriving DecidableEq

/-- `const plan = derivedPlan !== "free" ? derivedPlan : body.plan ?? "free"`:
the plan the activate route stores. -/
def activatePlanOf (b : ActivateBody) : Plan :=
  if planFromProductId b.productId ≠ Plan.free then planFromProductId b.productId
  else b.plan.getD .free

/-- The activate route's expiry: `plan === "lifetime" ? undefined :
typeof body.periodEnd === "number" ? new Date(body.periodEnd) : undefined`. -/
def activateExpiresAt (b : ActivateBody) : Option Int :=
  if activatePlanOf b = Plan.lifetime then none else b.periodEnd

/-- The ledger write of the activate route, as one value. -/
def activateLedgerWriteOf (userId : String) (b : ActivateBody) (amt : Int)
    (now : Int) : ActivateLedgerWrite :=
  { userId := userId
    platform := b.platform.getD ""
    provider := b.provider.getD ""
    productId := b.productId.getD ""
    transactionId := b.transactionId.getD ""
    amountCents := amt
    currency := toUpperStr (b.currency.getD "")
    purchasedAt := now
    expiresAt := activateExpiresAt b
    raw := .activate b }

/-- The happy path of `POST /subscription/activate`, after validation:
derive the plan (caller plan only when derivation gives `free`), upsert
the payment ledger row, then upsert the subscription row. -/
def activateApply (db : DB) (now : Int) (userId : String) (b : ActivateBody)
    (amt : Int) : ActivateResult × DB :=
  let plan := activatePlanOf b
  let expiresAt : Option Int := activateExpiresAt b
  let w : ActivateLedgerWrite := activateLedgerWriteOf userId b amt now
  let payments' := activatePayUpsert db.payments w
  let upd : SubUpdate :=
    { plan := some plan
      status := some .active
      source := some (subSourceFromProvider b.provider)
      startedAt := some now
      renewsAt := expiresAt
      canceledAt := none
      latestPaymentId := some (b.transactionId.getD "") }
  let r := findOneAndUpdateSub db.subs userId upd
  (.ok (toClientShape (some r.1)), { subs := r.2, payments := payments' })

/-- `POST /subscription/activate`: presence validation of `productId`,
`transactionId`, `provider`, `platform`, then the finite non-negative
`amountCents` check (`typeof`, `Number.isFinite` and `< 0` share one
rejection), then non-empty `currency`; only then any write. -/
def activate (db : DB) (now : Int) (userId : String) (b : ActivateBody) :
    ActivateResult × DB :=
  if !jsTruthyStr b.productId || !jsTruthyStr b.transactionId ||
      !jsTruthyStr b.provider || !jsTruthyStr b.platform then
    (.badRequest "Missing productId/transactionId/provider/platform", db)
  else
    match b.amountCents with
    | none => (.badRequest "Invalid amountCents", db)
    | some amt =>
      if amt < 0 then (.badRequest "Invalid amountCents", db)
      else if !jsTruthyStr b.currency then (.badRequest "Missing currency", db)
      else activateApply db now userId b amt

/-- Result discriminator of the resume / cancel routes. -/
inductive SimpleResult
  | notFound
  | ok (payload : ClientSubscription)
deriving DecidableEq

/-- `POST /subscription/resume-auto-renew`: 404 without a row; otherwise
`status = "active"`, `canceledAt = undefined`, `save()`. -/
def resumeAutoRenew (db : DB) (userId : String) : SimpleResult × DB :=
  match findSub db.subs userId with
  | none => (.notFound, db)
  | some d =>
    let d' := { d with status := SubStatus.active, canceledAt := none }
    (.ok (toClientShape (some d')), { db with subs := saveSub db.subs userId d' })

/-- `POST /subscription/switch-to-free`: create the row at the free tier
when absent, otherwise downgrade it in place (`plan = "free"`, `status =
"inactive"`, `source = "admin"`, `renewsAt` unset, `canceledAt = now`). -/
def switchToFree (db : DB) (now : Int) (userId : String) :
    ClientSubscription × DB :=
  match findSub db.subs userId with
  | none =>
    let d : SubRow :=
      { userId := userId
        plan := .free
        status := .inactive
        source := .admin
        startedAt := some now
        renewsAt := none
        canceledAt := some now
        latestPaymentId := none }
    (toClientShape (some d), { db with subs := db.subs ++ [d] })
  | some d =>
    let d' := { d with
      plan := Plan.free
      status := SubStatus.inactive
      source := SubSource.admin
      renewsAt := (none : Option Int)
      canceledAt := some now }
    (toClientShape (some d'), { db with subs := saveSub db.subs userId d' })

/-- One inbound unit of work against the reconciliation engine: a webhook
event delivery or a client activate call. -/
inductive Delivery
  | hook (ev : RCEvent)
  | act (userId : String) (b : ActivateBody)
deriving DecidableEq

/-- Apply one delivery to the datastore. -/
def stepDelivery (db : DB) (now : Int) : Delivery → DB
  | .hook ev => (revenuecatWebhook db now (some ev)).2
  | .act uid b => (activate db now uid b).2

/-- Apply a sequence of deliveries in order. -/
def runDeliveries (db : DB) (now : Int) : List Delivery → DB
  | [] => db
  | d :: ds => runDeliveries (stepDelivery db now d) now ds

/-- `amountCents` admission: a finite number that is not negative. -/
def amountOkB : Option Int → Bool
  | some n => decide (0 ≤ n)
  | none => false

/-- All admission checks of the activate route. -/
def validActivateB (b : ActivateBody) : Bool :=
  jsTruthyStr b.productId && jsTruthyStr b.transactionId &&
    jsTruthyStr b.provider && jsTruthyStr b.platform &&
    amountOkB b.amountCents && jsTruthyStr b.currency

/-- Whether a delivery reaches the ledger write for `transactionId = tid`:
a purchase-like webhook event with resolvable user and truthy
`transaction_id`, or an activate call passing validation. -/
def deliveryWritesB : Delivery → String → Bool
  | .hook ev, tid =>
    isPurchaseLikeType ev.type && jsTruthyStr ev.app_user_id &&
      (ev.transaction_id == some tid) && !(tid == "")
  | .act _ b, tid => validActivateB b && (b.transactionId == some tid)

/-- The identity fields (userId, platform, provider, productId) a delivery
would stamp on first insert of its ledger row. -/
def deliveryIdentity : Delivery → String × String × String × String
  | .hook ev =>
    (ev.app_user_id.getD "",
      webhookPlatformOf (providerFromStore ev.store),
      providerFromStore ev.store,
      ev.product_id.getD "unknown")
  | .act uid b => (uid, b.platform.getD "", b.provider.getD "", b.productId.getD "")

/-- The identity fields of a ledger row. -/
def payIdentity (p : PaymentRecord) : String × String × String × String :=
  (p.userId, p.platform, p.provider, p.productId)

/-- Ledger invariant for a transaction id: exactly one row carries it and
that row's identity fields are `idt`. -/
def LedgerInv (ps : List PaymentRecord) (tid : String)
    (idt : String × String × String × String) : Prop :=
  countPay ps tid = 1 ∧ ∃ p, findPay ps tid = some p ∧ payIdentity p = idt

/-! ### Concrete fixtures used by witnesses and counterexamples -/

/-- An empty datastore. -/
def emptyDB : DB := { subs := [], payments := [] }

/-- A user with an active monthly subscription bought through the app store. -/
def rowMonthlyActive : SubRow :=
  { userId := "u1"
    plan := .monthly
    status := .active
    source := .app_store
    startedAt := some 1000
    renewsAt := some 2000
    canceledAt := none
    latestPaymentId := none }

/-- Datastore holding just `rowMonthlyActive`. -/
def dbSubMonthly : DB := { subs := [rowMonthlyActive], payments := [] }

/-- A baseline purchase event from RevenueCat for user `u1`. -/
def evBase : RCEvent :=
  { type := "INITIAL_PURCHASE"
    app_user_id := some "u1"
    product_id := some "pkg.monthly"
    transaction_id := some "t1"
    original_transaction_id := none
    store := some "app_store"
    currency := none
    cancel_reason := none
    expiration_at_ms := some 2000
    purchased_at_ms := some 1000 }

/-- `rowMonthlyActive` after a voluntary cancellation. -/
def rowMonthlyCanceled : SubRow :=
  { rowMonthlyActive with status := SubStatus.canceled, canceledAt := some 60 }

/-- Datastore holding just `rowMonthlyCanceled`. -/
def dbSubCanceled : DB := { subs := [rowMonthlyCanceled], payments := [] }

/-- A baseline valid activate body for a yearly product. -/
def bodyBase : ActivateBody :=
  { plan := some .yearly
    periodEnd := some 9999
    amountCents := some 4999
    currency := some "eur"
    productId := some "pkg.yearly"
    transactionId := some "t2"
    platform := some "ios"
    provider := some "app_store" }

/-- The datastore after one successful activate call with `bodyBase`. -/
def dbAfterActivate : DB := (activate emptyDB 10 "u1" bodyBase).2

/-- The ledger row that first activate call inserts. -/
def payFirst : PaymentRecord :=
  { userId := "u1"
    platform := "ios"
    provider := "app_store"
    productId := "pkg.yearly"
    transactionId := "t2"
    originalTransactionId := none
    amountCents := 4999
    currency := "EUR"
    purchasedAt := 10
    expiresAt := some 9999
    rawPayload := .activate bodyBase }

/-- The plan carried by a successful activate response. -/
def resultPlanOf : ActivateResult → Option Plan
  | .ok p => some p.plan
  | .badRequest _ => none

/-! ### Helper lemmas about the datastore operations -/

theorem findSub_findOneAndUpdateSub (subs : List SubRow) (uid : String) (u : SubUpdate) :
    findSub (findOneAndUpdateSub subs uid u).2 uid =
      some (findOneAndUpdateSub subs uid u).1 := by
  induction subs with
  | nil => simp [findOneAndUpdateSub, findSub, subInsertDoc]
  | cons r rs ih =>
    by_cases h : r.userId = uid
    · simp [findOneAndUpdateSub, h, findSub, applySubSet]
    · simp [findOneAndUpdateSub, h, findSub, ih]

theorem findOneAndUpdateSub_fst (subs : List SubRow) (uid : String) (u : SubUpdate) :
    (findOneAndUpdateSub subs uid u).1 =
      (match findSub subs uid with
       | some r => applySubSet r u
       | none => subInsertDoc uid u) := by
  induction subs with
  | nil => rfl
  | cons r rs ih =>
    by_cases h : r.userId = uid
    · simp [findOneAndUpdateSub, findSub, h]
    · simp [findOneAndUpdateSub, findSub, h, ih]

theorem findSub_userId (subs : List SubRow) (uid : String) (d : SubRow)
    (h : findSub subs uid = some d) : d.userId = uid := by
  induction subs with
  | nil => simp [findSub] at h
  | cons r rs ih =>
    by_cases hr : r.userId = uid
    · simp [findSub, hr] at h
      cases h
      exact hr
    · simp [findSub, hr] at h
      exact ih h

theorem findSub_saveSub (subs : List SubRow) (uid : String) (d d' : SubRow)
    (h : findSub subs uid = some d) (hd : d'.userId = uid) :
    findSub (saveSub subs uid d') uid = some d' := by
  induction subs with
  | nil => simp [findSub] at h
  | cons r rs ih =>
    by_cases hr : r.userId = uid
    · simp [saveSub, hr, findSub, hd]
    · simp [findSub, hr] at h
      simp [saveSub, hr, findSub, ih h]

theorem applySubSet_applySubSet (r : SubRow) (u : SubUpdate) :
    applySubSet (applySubSet r u) u = applySubSet r u := by
  cases u with
  | mk p s so st rw ca lp =>
    cases p <;> cases s <;> cases so <;> cases st <;> cases rw <;> cases ca <;>
      cases lp <;> rfl

theorem applySubSet_subInsertDoc (uid : String) (u : SubUpdate) :
    applySubSet (subInsertDoc uid u) u = subInsertDoc uid u := by
  cases u with
  | mk p s so st rw ca lp =>
    cases p <;> cases s <;> cases so <;> cases st <;> cases rw <;> cases ca <;>
      cases lp <;> rfl

theorem findPay_none_of_hasPay_false (ps : List PaymentRecord) (tid : String)
    (h : hasPay ps tid = false) : findPay ps tid = none := by
  induction ps with
  | nil => rfl
  | cons p ps ih =>
    by_cases hp : p.transactionId = tid
    · simp [hasPay, hp] at h
    · simp [hasPay, hp] at h
      simp [findPay, hp, ih h]

theorem countPay_zero_of_hasPay_false (ps : List PaymentRecord) (tid : String)
    (h : hasPay ps tid = false) : countPay ps tid = 0 := by
  induction ps with
  | nil => rfl
  | cons p ps ih =>
    by_cases hp : p.transactionId = tid
    · simp [hasPay, hp] at h
    · simp [hasPay, hp] at h
      simp [countPay, hp, ih h]

theorem countPay_append (ps : List PaymentRecord) (p : PaymentRecord) (tid : String) :
    countPay (ps ++ [p]) tid =
      countPay ps tid + (if p.transactionId = tid then 1 else 0) := by
  induction ps with
  | nil => simp [countPay]
  | cons q qs ih => simp [countPay, ih, Nat.add_assoc]

theorem findPay_append_self (ps : List PaymentRecord) (p : PaymentRecord) (tid : String)
    (h : findPay ps tid = none) (hp : p.transactionId = tid) :
    findPay (ps ++ [p]) tid = some p := by
  induction ps with
  | nil => simp [findPay, hp]
  | cons q qs ih =>
    by_cases hq : q.transactionId = tid
    · simp [findPay, hq] at h
    · simp [findPay, hq] at h
      simp [findPay, hq, ih h]

theorem activatePayUpsert_of_hasPay_false (ps : List PaymentRecord)
    (w : ActivateLedgerWrite) (h : hasPay ps w.transactionId = false) :
    activatePayUpsert ps w = ps ++ [activateInsertDoc w] := by
  induction ps with
  | nil => rfl
  | cons p ps ih =>
    by_cases hp : p.transactionId = w.transactionId
    · simp [hasPay, hp] at h
    · simp [hasPay, hp] at h
      simp [activatePayUpsert, hp, ih h]

theorem activatePayUpsert_found (ps : List PaymentRecord) (w : ActivateLedgerWrite)
    (p : PaymentRecord) (h : findPay ps w.transactionId = some p) :
    findPay (activatePayUpsert ps w) w.transactionId = some (applyActivateSet p w) ∧
      countPay (activatePayUpsert ps w) w.transactionId =
        countPay ps w.transactionId := by
  induction ps with
  | nil => simp [findPay] at h
  | cons q qs ih =>
    by_cases hq : q.transactionId = w.transactionId
    · simp [findPay, hq] at h
      cases h
      constructor
      · simp [activatePayUpsert, hq, findPay, applyActivateSet]
      · simp [activatePayUpsert, hq, countPay, applyActivateSet]
    · simp [findPay, hq] at h
      constructor
      · simp [activatePayUpsert, hq, findPay, (ih h).1]
      · simp [activatePayUpsert, hq, countPay, (ih h).2]

theorem findSub_append_self (subs : List SubRow) (d : SubRow) (uid : String)
    (h : findSub subs uid = none) (hd : d.userId = uid) :
    findSub (subs ++ [d]) uid = some d := by
  induction subs with
  | nil => simp [findSub, hd]
  | cons r rs ih =>
    by_cases hr : r.userId = uid
    · simp [findSub, hr] at h
    · simp [findSub, hr] at h
      simp [findSub, hr, ih h]

theorem hasPay_true_of_findPay (ps : List PaymentRecord) (tid : String)
    (p : PaymentRecord) (h : findPay ps tid = some p) : hasPay ps tid = true := by
  induction ps with
  | nil => simp [findPay] at h
  | cons q qs ih =>
    by_cases hq : q.transactionId = tid
    · simp [hasPay, hq]
    · simp [findPay, hq] at h
      simp [hasPay, hq, ih h]

theorem jsTruthy_exists (o : Option String) (h : jsTruthyStr o = true) :
    ∃ s, o = some s ∧ s ≠ "" := by
  cases o with
  | none => simp [jsTruthyStr] at h
  | some s =>
    refine ⟨s, rfl, ?_⟩
    simpa [jsTruthyStr] using h

/-! ### Branch characterizations of the webhook handler -/

theorem webhook_purchase_eq (db : DB) (now : Int) (ev : RCEvent) (uid : String)
    (hty : isPurchaseLikeType ev.type = true) (hu : ev.app_user_id = some uid)
    (hne : uid ≠ "") :
    revenuecatWebhook db now (some ev) = (.purchased, webhookPurchaseStep db now ev uid) := by
  have htyne : ¬ ev.type = "" := by
    intro h
    rw [h] at hty
    simp [isPurchaseLikeType] at hty
  simp [revenuecatWebhook, htyne, hu, hne, hty]

theorem webhook_refund_eq (db : DB) (now : Int) (ev : RCEvent) (uid : String)
    (hty : ev.type = "CANCELLATION") (hcr : ev.cancel_reason = some "CUSTOMER_SUPPORT")
    (hu : ev.app_user_id = some uid) (hne : uid ≠ "") :
    revenuecatWebhook db now (some ev) = (.revoked, webhookRefundStep db now ev uid) := by
  simp [revenuecatWebhook, hty, hcr, hu, hne, isPurchaseLikeType]

theorem webhook_cancel_eq (db : DB) (now : Int) (ev : RCEvent) (uid : String)
    (hty : ev.type = "CANCELLATION") (hcr : ev.cancel_reason ≠ some "CUSTOMER_SUPPORT")
    (hu : ev.app_user_id = some uid) (hne : uid ≠ "") :
    revenuecatWebhook db now (some ev) = (.canceledAck, webhookCancelStep db now ev uid) := by
  simp [revenuecatWebhook, hty, hcr, hu, hne, isPurchaseLikeType]

theorem webhook_expire_eq (db : DB) (now : Int) (ev : RCEvent) (uid : String)
    (hty : ev.type = "EXPIRATION") (hu : ev.app_user_id = some uid) (hne : uid ≠ "") :
    revenuecatWebhook db now (some ev) = (.expiredAck, webhookExpireStep db now ev uid) := by
  simp [revenuecatWebhook, hty, hu, hne, isPurchaseLikeType]

theorem webhook_ignored_eq (db : DB) (now : Int) (ev : RCEvent) (uid : String)
    (hty : isPurchaseLikeType ev.type = false) (hc : ev.type ≠ "CANCELLATION")
    (hx : ev.type ≠ "EXPIRATION") (hz : ev.type ≠ "")
    (hu : ev.app_user_id = some uid) (hne : uid ≠ "") :
    revenuecatWebhook db now (some ev) = (.ignored ev.type, db) := by
  simp [revenuecatWebhook, hty, hc, hx, hz, hu, hne]

/-! ### Validation characterization of the activate route -/

theorem activate_of_valid (db : DB) (now : Int) (uid : String) (b : ActivateBody)
    (h : validActivateB b = true) :
    ∃ amt, b.amountCents = some amt ∧ 0 ≤ amt ∧
      activate db now uid b = activateApply db now uid b amt := by
  have h' := h
  unfold validActivateB at h'
  simp only [Bool.and_eq_true] at h'
  obtain ⟨⟨⟨⟨⟨h1, h2⟩, h3⟩, h4⟩, h5⟩, h6⟩ := h'
  cases hamt : b.amountCents with
  | none =>
    rw [hamt] at h5
    simp [amountOkB] at h5
  | some amt =>
    rw [hamt] at h5
    have hnn : 0 ≤ amt := by simpa [amountOkB] using h5
    refine ⟨amt, rfl, hnn, ?_⟩
    unfold activate
    rw [h1, h2, h3, h4, h6, hamt]
    simp [if_neg (by omega : ¬ amt < 0)]

/-! ### Specifications of the single-row client routes -/

theorem resume_found (db : DB) (uid : String) (d : SubRow)
    (h : findSub db.subs uid = some d) :
    (resumeAutoRenew db uid).1 =
      .ok (toClientShape (some { d with status := SubStatus.active, canceledAt := none })) ∧
    (resumeAutoRenew db uid).2.payments = db.payments ∧
    findSub (resumeAutoRenew db uid).2.subs uid =
      some { d with status := SubStatus.active, canceledAt := none } := by
  have huid : d.userId = uid := findSub_userId db.subs uid d h
  unfold resumeAutoRenew
  rw [h]
  exact ⟨rfl, rfl, findSub_saveSub db.subs uid d
    { d with status := SubStatus.active, canceledAt := none } h huid⟩

theorem switchToFree_spec (db : DB) (now : Int) (uid : String) :
    ∃ d, findSub (switchToFree db now uid).2.subs uid = some d ∧
      d.userId = uid ∧ d.plan = .free ∧ d.status = .inactive ∧ d.source = .admin ∧
      d.renewsAt = none ∧ d.canceledAt = some now := by
  cases hfind : findSub db.subs uid with
  | none =>
    have hfs : findSub (switchToFree db now uid).2.subs uid =
        some { userId := uid, plan := .free, status := .inactive, source := .admin,
               startedAt := some now, renewsAt := none, canceledAt := some now,
               latestPaymentId := none } := by
      unfold switchToFree
      rw [hfind]
      exact findSub_append_self db.subs _ uid hfind rfl
    exact ⟨_, hfs, rfl, rfl, rfl, rfl, rfl, rfl⟩
  | some d =>
    have huid : d.userId = uid := findSub_userId db.subs uid d hfind
    have hfs : findSub (switchToFree db now uid).2.subs uid =
        some { d with plan := Plan.free, status := SubStatus.inactive, source := SubSource.admin, renewsAt := (none : Option Int), canceledAt := some now } := by
      unfold switchToFree
      rw [hfind]
      exact findSub_saveSub db.subs uid d
        ({ d with plan := Plan.free, status := SubStatus.inactive, source := SubSource.admin, renewsAt := (none : Option Int), canceledAt := some now }) hfind huid
    exact ⟨_, hfs, huid, rfl, rfl, rfl, rfl, rfl⟩

/-- The plan and payload shape the activate happy path produces. -/
theorem activateApply_plan (db : DB) (now : Int) (uid : String) (b : ActivateBody)
    (amt : Int) :
    ∃ p db', activateApply db now uid b amt = (.ok p, db') ∧
      p.plan = activatePlanOf b := by
  refine ⟨_, _, rfl, ?_⟩
  show (toClientShape (some (findOneAndUpdateSub db.subs uid _).1)).plan = _
  rw [findOneAndUpdateSub_fst]
  cases findSub db.subs uid with
  | none => simp [toClientShape, subInsertDoc]
  | some r => simp [toClientShape, applySubSet]

/-! ### Row-level effect of each webhook branch -/

theorem purchaseStep_row (db : DB) (now : Int) (ev : RCEvent) (uid : String) :
    ∃ r, findSub (webhookPurchaseStep db now ev uid).subs uid = some r ∧
      r.plan = planFromProductId ev.product_id ∧
      r.status = .active ∧
      r.source = webhookSource ev ∧
      r.startedAt = some (startedAtOf ev.purchased_at_ms now) ∧
      r.renewsAt = (match renewsAtOf ev.expiration_at_ms with
                    | some v => some v
                    | none => (match findSub db.subs uid with
                               | some old => old.renewsAt
                               | none => none)) ∧
      r.canceledAt = (match findSub db.subs uid with
                      | some old => old.canceledAt
                      | none => none) := by
  refine ⟨(findOneAndUpdateSub db.subs uid (webhookPurchaseUpd ev now)).1,
    findSub_findOneAndUpdateSub db.subs uid (webhookPurchaseUpd ev now), ?_⟩
  rw [findOneAndUpdateSub_fst]
  cases findSub db.subs uid with
  | none =>
    simp [subInsertDoc, webhookPurchaseUpd]
    cases renewsAtOf ev.expiration_at_ms <;> rfl
  | some old => simp [applySubSet, webhookPurchaseUpd]

theorem refundStep_row (db : DB) (now : Int) (ev : RCEvent) (uid : String) :
    ∃ r, findSub (webhookRefundStep db now ev uid).subs uid = some r ∧
      r.plan = .free ∧
      r.status = .inactive ∧
      r.canceledAt = some now ∧
      r.renewsAt = (match findSub db.subs uid with
                    | some old => old.renewsAt
                    | none => none) ∧
      r.startedAt = (match findSub db.subs uid with
                     | some old => old.startedAt
                     | none => none) := by
  refine ⟨(findOneAndUpdateSub db.subs uid (webhookRefundUpd ev now)).1,
    findSub_findOneAndUpdateSub db.subs uid (webhookRefundUpd ev now), ?_⟩
  rw [findOneAndUpdateSub_fst]
  cases findSub db.subs uid with
  | none => simp [subInsertDoc, webhookRefundUpd]
  | some old => simp [applySubSet, webhookRefundUpd]

theorem cancelStep_row (db : DB) (now : Int) (ev : RCEvent) (uid : String) :
    ∃ r, findSub (webhookCancelStep db now ev uid).subs uid = some r ∧
      r.plan = planFromProductId ev.product_id ∧
      r.status = .canceled ∧
      r.canceledAt = some now ∧
      r.renewsAt = (match renewsAtOf ev.expiration_at_ms with
                    | some v => some v
                    | none => (match findSub db.subs uid with
                               | some old => old.renewsAt
                               | none => none)) ∧
      r.startedAt = (match findSub db.subs uid with
                     | some old => old.startedAt
                     | none => none) := by
  refine ⟨(findOneAndUpdateSub db.subs uid (webhookCancelUpd ev now)).1,
    findSub_findOneAndUpdateSub db.subs uid (webhookCancelUpd ev now), ?_⟩
  rw [findOneAndUpdateSub_fst]
  cases findSub db.subs uid with
  | none =>
    simp [subInsertDoc, webhookCancelUpd]
    cases renewsAtOf ev.expiration_at_ms <;> rfl
  | some old => simp [applySubSet, webhookCancelUpd]

/-! ### Ledger invariant preservation across deliveries -/

theorem stepDelivery_establishes (db : DB) (now : Int) (tid : String) (d : Delivery)
    (h0 : hasPay db.payments tid = false) (hw : deliveryWritesB d tid = true) :
    LedgerInv (stepDelivery db now d).payments tid (deliveryIdentity d) := by
  cases d with
  | hook ev =>
    simp only [deliveryWritesB, Bool.and_eq_true] at hw
    obtain ⟨⟨⟨h1, h2⟩, h3⟩, h4⟩ := hw
    obtain ⟨uid, hu, hune⟩ := jsTruthy_exists _ h2
    have htid : ev.transaction_id = some tid := by simpa using h3
    have htne : tid ≠ "" := by simpa using h4
    have hstep : stepDelivery db now (.hook ev) = webhookPurchaseStep db now ev uid := by
      simp [stepDelivery, webhook_purchase_eq db now ev uid h1 hu hune]
    rw [hstep]
    have hpay : (webhookPurchaseStep db now ev uid).payments =
        db.payments ++ [webhookLedgerDoc ev uid tid now] := by
      simp [webhookPurchaseStep, htid, htne, paymentUpsertInsertOnly, h0]
    rw [hpay]
    constructor
    · rw [countPay_append, countPay_zero_of_hasPay_false _ _ h0]
      simp [webhookLedgerDoc]
    · refine ⟨webhookLedgerDoc ev uid tid now, ?_, ?_⟩
      · exact findPay_append_self _ _ _ (findPay_none_of_hasPay_false _ _ h0) rfl
      · simp [payIdentity, webhookLedgerDoc, deliveryIdentity, hu]
  | act uid b =>
    simp only [deliveryWritesB, Bool.and_eq_true] at hw
    obtain ⟨hv, h3⟩ := hw
    have htid : b.transactionId = some tid := by simpa using h3
    obtain ⟨amt, hamt, hnn, heq⟩ := activate_of_valid db now uid b hv
    have hstep : (stepDelivery db now (.act uid b)).payments =
        activatePayUpsert db.payments (activateLedgerWriteOf uid b amt now) := by
      simp [stepDelivery, heq, activateApply]
    rw [hstep]
    have htid' : (activateLedgerWriteOf uid b amt now).transactionId = tid := by
      simp [activateLedgerWriteOf, htid]
    rw [activatePayUpsert_of_hasPay_false db.payments (activateLedgerWriteOf uid b amt now)
      (by rw [htid']; exact h0)]
    constructor
    · rw [countPay_append, countPay_zero_of_hasPay_false _ _ h0]
      simp [activateInsertDoc, htid']
    · refine ⟨activateInsertDoc (activateLedgerWriteOf uid b amt now),
        findPay_append_self _ _ _ (findPay_none_of_hasPay_false _ _ h0) ?_, ?_⟩
      · simpa [activateInsertDoc] using htid'
      · simp [payIdentity, activateInsertDoc, deliveryIdentity, activateLedgerWriteOf]

theorem stepDelivery_preserves (db : DB) (now : Int) (tid : String) (d : Delivery)
    (idt : String × String × String × String) (hw : deliveryWritesB d tid = true)
    (hinv : LedgerInv db.payments tid idt) :
    LedgerInv (stepDelivery db now d).payments tid idt := by
  obtain ⟨hcount, p, hfind, hid⟩ := hinv
  have hhas : hasPay db.payments tid = true := hasPay_true_of_findPay _ _ _ hfind
  cases d with
  | hook ev =>
    simp only [deliveryWritesB, Bool.and_eq_true] at hw
    obtain ⟨⟨⟨h1, h2⟩, h3⟩, h4⟩ := hw
    obtain ⟨uid, hu, hune⟩ := jsTruthy_exists _ h2
    have htid : ev.transaction_id = some tid := by simpa using h3
    have hstep : stepDelivery db now (.hook ev) = webhookPurchaseStep db now ev uid := by
      simp [stepDelivery, webhook_purchase_eq db now ev uid h1 hu hune]
    rw [hstep]
    have hpay : (webhookPurchaseStep db now ev uid).payments = db.payments := by
      by_cases htne : tid = ""
      · simp [webhookPurchaseStep, htid, htne]
      · simp [webhookPurchaseStep, htid, htne, paymentUpsertInsertOnly, hhas]
    rw [hpay]
    exact ⟨hcount, p, hfind, hid⟩
  | act uid b =>
    simp only [deliveryWritesB, Bool.and_eq_true] at hw
    obtain ⟨hv, h3⟩ := hw
    have htid : b.transactionId = some tid := by simpa using h3
    obtain ⟨amt, hamt, hnn, heq⟩ := activate_of_valid db now uid b hv
    have hstep : (stepDelivery db now (.act uid b)).payments =
        activatePayUpsert db.payments (activateLedgerWriteOf uid b amt now) := by
      simp [stepDelivery, heq, activateApply]
    rw [hstep]
    have htid' : (activateLedgerWriteOf uid b amt now).transactionId = tid := by
      simp [activateLedgerWriteOf, htid]
    have hfind' : findPay db.payments (activateLedgerWriteOf uid b amt now).transactionId =
        some p := by
      rw [htid']
      exact hfind
    obtain ⟨hf2, hc2⟩ := activatePayUpsert_found db.payments
      (activateLedgerWriteOf uid b amt now) p hfind'
    rw [htid'] at hf2 hc2
    refine ⟨?_, applyActivateSet p (activateLedgerWriteOf uid b amt now), hf2, ?_⟩
    · rw [hc2]
      exact hcount
    · simpa [payIdentity, applyActivateSet] using hid

theorem runDeliveries_preserves (now : Int) (tid : String)
    (idt : String × String × String × String) (ds : List Delivery) :
    ∀ db : DB, (∀ x ∈ ds, deliveryWritesB x tid = true) →
      LedgerInv db.payments tid idt →
      LedgerInv (runDeliveries db now ds).payments tid idt := by
  induction ds with
  | nil => exact fun db _ hinv => hinv
  | cons d ds ih =>
    intro db hall hinv
    have hd : deliveryWritesB d tid = true := hall d (by simp)
    have hds : ∀ x ∈ ds, deliveryWritesB x tid = true := fun x hx => hall x (by simp [hx])
    exact ih _ hds (stepDelivery_preserves db now tid d idt hd hinv)

/-! ### Claim C9 -/

/-- C9: for every subscription row the projection has `autoRenew = true`
iff the plan is neither `free` nor `lifetime` and the status is `active`;
in particular a lifetime plan never auto-renews; and an absent row projects
to the free/inactive shape with `autoRenew = false` and `periodEnd = null`. -/
theorem C9_projection_autorenew (d : SubRow) :
    ((toClientShape (some d)).autoRenew = true ↔
      (d.plan ≠ Plan.free ∧ d.plan ≠ Plan.lifetime ∧ d.status = SubStatus.active)) ∧
    (d.plan = Plan.lifetime → (toClientShape (some d)).autoRenew = false) ∧
    toClientShape none =
      { plan := .free, status := .inactive, autoRenew := false, periodEnd := none, storageLimitGb := none } := by
  obtain ⟨u, p, s, so, st, rw, ca, lp⟩ := d
  refine ⟨?_, ?_, rfl⟩ <;> cases p <;> cases s <;> simp [toClientShape]

/-- Witness for C9 at a concrete lifetime row: even with status `active`,
`autoRenew` is `false`; and the absent-row projection is the free shape. -/
theorem C9_projection_autorenew_witness :
    (toClientShape (some { rowMonthlyActive with plan := Plan.lifetime })).autoRenew = false ∧
    toClientShape none =
      { plan := .free, status := .inactive, autoRenew := false, periodEnd := none, storageLimitGb := none } :=
  ⟨(C9_projection_autorenew { rowMonthlyActive with plan := Plan.lifetime }).2.1 rfl,
    (C9_projection_autorenew rowMonthlyActive).2.2⟩

/-! ### Claim C7 -/

/-- C7 counterexample: `"app.monthly.yearly"` contains `".yearly"` but the
derivation yields `monthly`, not `yearly`, because `".monthly"` is checked
first — so "contains `.yearly` anywhere implies yearly" is false. -/
theorem C7_counterexample :
    strContains "app.monthly.yearly" ".yearly" = true ∧
    planFromProductId (some "app.monthly.yearly") = Plan.monthly ∧
    planFromProductId (some "app.monthly.yearly") ≠ Plan.yearly := by decide

/-- C7 (amended): the markers are probed in the fixed order `.monthly`,
`.yearly`, `.lifetime` with the first match winning: a product id
containing `.monthly` derives `monthly` whatever else it contains; one
containing `.yearly` but not `.monthly` derives `yearly`; one containing
`.lifetime` but neither earlier marker derives `lifetime`; and a product
id with no marker, or no product id at all, derives `free`. -/
theorem C7_plan_marker_order (s : String) :
    (strContains s ".monthly" = true → planFromProductId (some s) = .monthly) ∧
    (strContains s ".yearly" = true → strContains s ".monthly" = false →
      planFromProductId (some s) = .yearly) ∧
    (strContains s ".lifetime" = true → strContains s ".monthly" = false →
      strContains s ".yearly" = false → planFromProductId (some s) = .lifetime) ∧
    (strContains s ".monthly" = false → strContains s ".yearly" = false →
      strContains s ".lifetime" = false → planFromProductId (some s) = .free) ∧
    planFromProductId none = .free := by
  refine ⟨?_, ?_, ?_, ?_, rfl⟩
  · intro h
    by_cases hs : s = ""
    · rw [hs] at h
      exact absurd h (by decide)
    · simp [planFromProductId, hs, h]
  · intro hy hm
    by_cases hs : s = ""
    · rw [hs] at hy
      exact absurd hy (by decide)
    · simp [planFromProductId, hs, hy, hm]
  · intro hl hm hy
    by_cases hs : s = ""
    · rw [hs] at hl
      exact absurd hl (by decide)
    · simp [planFromProductId, hs, hl, hm, hy]
  · intro hm hy hl
    by_cases hs : s = ""
    · simp [planFromProductId, hs]
    · simp [planFromProductId, hs, hm, hy, hl]

/-- Witness for C7 at a concrete product id with only the `.yearly` marker. -/
theorem C7_plan_marker_order_witness :
    planFromProductId (some "pkg.yearly") = .yearly :=
  (C7_plan_marker_order "pkg.yearly").2.1 (by decide) (by decide)

/-! ### Claim C8 -/

/-- C8: an activate body with a missing (or empty) `productId`,
`transactionId`, `provider` or `platform`, or with an `amountCents` that is
not a finite non-negative number, or with an empty `currency`, is rejected
with a bad-request error, and the datastore is returned unchanged. -/
theorem C8_activate_rejects_invalid (db : DB) (now : Int) (uid : String)
    (b : ActivateBody)
    (h : jsTruthyStr b.productId = false ∨ jsTruthyStr b.transactionId = false ∨
      jsTruthyStr b.provider = false ∨ jsTruthyStr b.platform = false ∨
      amountOkB b.amountCents = false ∨ jsTruthyStr b.currency = false) :
    ∃ msg, activate db now uid b = (.badRequest msg, db) := by
  by_cases hg : (!jsTruthyStr b.productId || !jsTruthyStr b.transactionId ||
      !jsTruthyStr b.provider || !jsTruthyStr b.platform) = true
  · refine ⟨"Missing productId/transactionId/provider/platform", ?_⟩
    unfold activate
    rw [if_pos hg]
  · rcases h with h|h|h|h|h|h
    · exact absurd (by simp [h]) hg
    · exact absurd (by simp [h]) hg
    · exact absurd (by simp [h]) hg
    · exact absurd (by simp [h]) hg
    · cases hamt : b.amountCents with
      | none =>
        refine ⟨"Invalid amountCents", ?_⟩
        unfold activate
        rw [if_neg hg, hamt]
      | some amt =>
        rw [hamt] at h
        have hneg : amt < 0 := by
          simp [amountOkB] at h
          omega
        refine ⟨"Invalid amountCents", ?_⟩
        unfold activate
        rw [if_neg hg, hamt]
        simp [hneg]
    · cases hamt : b.amountCents with
      | none =>
        refine ⟨"Invalid amountCents", ?_⟩
        unfold activate
        rw [if_neg hg, hamt]
      | some amt =>
        by_cases hneg : amt < 0
        · refine ⟨"Invalid amountCents", ?_⟩
          unfold activate
          rw [if_neg hg, hamt]
          simp [hneg]
        · refine ⟨"Missing currency", ?_⟩
          unfold activate
          rw [if_neg hg, hamt]
          simp [hneg, h]

/-- Witness for C8: an activate call missing `transactionId` is rejected
and mutates nothing. -/
theorem C8_activate_rejects_invalid_witness :
    ∃ msg, activate dbSubMonthly 0 "u1" { bodyBase with transactionId := none } =
      (.badRequest msg, dbSubMonthly) :=
  C8_activate_rejects_invalid dbSubMonthly 0 "u1"
    { bodyBase with transactionId := none } (Or.inr (Or.inl (by decide)))

/-! ### Claim C10 -/

/-- C10: resume-auto-renew has no guard on the row's plan: on any existing
row it sets `status = active` and clears `canceledAt` while leaving `plan`,
`renewsAt`, `source` and `startedAt` unchanged; composing switch-to-free
with resume-auto-renew therefore leaves the user entitled
(`status = active`) on the `free` plan. -/
theorem C10_resume_no_plan_guard (db : DB) (now : Int) (uid : String) :
    (∀ d, findSub db.subs uid = some d →
      ∃ r, findSub (resumeAutoRenew db uid).2.subs uid = some r ∧
        (resumeAutoRenew db uid).1 = .ok (toClientShape (some r)) ∧
        r.status = .active ∧ r.canceledAt = none ∧ r.plan = d.plan ∧
        r.renewsAt = d.renewsAt ∧ r.source = d.source ∧ r.startedAt = d.startedAt) ∧
    (∃ r, findSub (resumeAutoRenew (switchToFree db now uid).2 uid).2.subs uid = some r ∧
      r.status = .active ∧ r.plan = .free ∧ r.canceledAt = none) := by
  constructor
  · intro d hd
    obtain ⟨hres, _, hfs⟩ := resume_found db uid d hd
    exact ⟨_, hfs, hres, rfl, rfl, rfl, rfl, rfl, rfl⟩
  · obtain ⟨d0, hfs0, _, hplan0, _, _, _, _⟩ := switchToFree_spec db now uid
    obtain ⟨_, _, hfs⟩ := resume_found (switchToFree db now uid).2 uid d0 hfs0
    exact ⟨_, hfs, rfl, hplan0, rfl⟩

/-- Witness for C10 on a concrete datastore: resume after switch-to-free
ends with an active free-plan row. -/
theorem C10_resume_no_plan_guard_witness :
    (∃ r, findSub (resumeAutoRenew dbSubMonthly "u1").2.subs "u1" = some r ∧
      (resumeAutoRenew dbSubMonthly "u1").1 = .ok (toClientShape (some r)) ∧
      r.status = .active ∧ r.canceledAt = none ∧ r.plan = rowMonthlyActive.plan ∧
      r.renewsAt = rowMonthlyActive.renewsAt ∧ r.source = rowMonthlyActive.source ∧
      r.startedAt = rowMonthlyActive.startedAt) ∧
    (∃ r, findSub (resumeAutoRenew (switchToFree dbSubMonthly 77 "u1").2 "u1").2.subs "u1" =
        some r ∧ r.status = .active ∧ r.plan = .free ∧ r.canceledAt = none) :=
  ⟨(C10_resume_no_plan_guard dbSubMonthly 77 "u1").1 rowMonthlyActive (by decide),
    (C10_resume_no_plan_guard dbSubMonthly 77 "u1").2⟩

/-! ### Claim C1 -/

/-- C1 counterexample: a `REFUND` event for a subscribed user is
acknowledged as *ignored* and leaves the subscription untouched — the
claimed transition to `{plan: free, status: inactive}` does not happen. -/
theorem C1_counterexample :
    revenuecatWebhook dbSubMonthly 60 (some { evBase with type := "REFUND" }) =
      (.ignored "REFUND", dbSubMonthly) ∧
    (findSub (revenuecatWebhook dbSubMonthly 60
        (some { evBase with type := "REFUND" })).2.subs "u1").map SubRow.status =
      some SubStatus.active ∧
    some SubStatus.active ≠ some SubStatus.inactive := by decide

/-- C1 (amended): only a `CANCELLATION` with `cancelReason =
CUSTOMER_SUPPORT` revokes entitlement — the row then has `plan = free`,
`status = inactive`, `canceledAt = now`, while `renewsAt` is left at the
stored value (cleared only when the row is created by the upsert); events
of type `REFUND` or `REVOCATION` are acknowledged as ignored no-ops that
leave the datastore unchanged. -/
theorem C1_refund_like_revocation (db : DB) (now : Int) (ev : RCEvent) (uid : String)
    (hu : ev.app_user_id = some uid) (hne : uid ≠ "") :
    (ev.type = "CANCELLATION" → ev.cancel_reason = some "CUSTOMER_SUPPORT" →
      ∃ r, findSub (revenuecatWebhook db now (some ev)).2.subs uid = some r ∧
        r.plan = .free ∧ r.status = .inactive ∧ r.canceledAt = some now ∧
        r.renewsAt = (match findSub db.subs uid with
                      | some old => old.renewsAt
                      | none => none)) ∧
    ((ev.type = "REFUND" ∨ ev.type = "REVOCATION") →
      revenuecatWebhook db now (some ev) = (.ignored ev.type, db)) := by
  constructor
  · intro hty hcr
    simp only [webhook_refund_eq db now ev uid hty hcr hu hne]
    obtain ⟨r, hfs, h1, h2, h3, h4, _⟩ := refundStep_row db now ev uid
    exact ⟨r, hfs, h1, h2, h3, h4⟩
  · rintro (h | h)
    · exact webhook_ignored_eq db now ev uid (by rw [h]; decide) (by rw [h]; decide)
        (by rw [h]; decide) (by rw [h]; decide) hu hne
    · exact webhook_ignored_eq db now ev uid (by rw [h]; decide) (by rw [h]; decide)
        (by rw [h]; decide) (by rw [h]; decide) hu hne

/-- Witness for C1 on concrete events: a support cancellation revokes
(keeping the stored `renewsAt`), and a `REVOCATION` event is ignored. -/
theorem C1_refund_like_revocation_witness :
    (∃ r, findSub (revenuecatWebhook dbSubMonthly 60
        (some { evBase with type := "CANCELLATION", cancel_reason := some "CUSTOMER_SUPPORT" })).2.subs "u1" = some r ∧
      r.plan = .free ∧ r.status = .inactive ∧ r.canceledAt = some 60 ∧
      r.renewsAt = (match findSub dbSubMonthly.subs "u1" with
                    | some old => old.renewsAt
                    | none => none)) ∧
    revenuecatWebhook dbSubMonthly 60 (some { evBase with type := "REVOCATION" }) =
      (.ignored "REVOCATION", dbSubMonthly) :=
  ⟨(C1_refund_like_revocation dbSubMonthly 60
      { evBase with type := "CANCELLATION", cancel_reason := some "CUSTOMER_SUPPORT" }
      "u1" rfl (by decide)).1 rfl rfl,
    (C1_refund_like_revocation dbSubMonthly 60 { evBase with type := "REVOCATION" }
      "u1" rfl (by decide)).2 (Or.inr rfl)⟩

/-! ### Claim C4 -/

/-- C4 counterexample: a plain `CANCELLATION` without a product id applied
to a monthly subscriber *overwrites* the stored plan with the event-derived
plan `free` — the plan is not left unchanged. -/
theorem C4_counterexample :
    (findSub dbSubMonthly.subs "u1").map SubRow.plan = some Plan.monthly ∧
    (findSub (revenuecatWebhook dbSubMonthly 60
        (some { evBase with type := "CANCELLATION", product_id := none, expiration_at_ms := none })).2.subs "u1").map SubRow.plan =
      some Plan.free ∧
    some Plan.free ≠ some Plan.monthly := by decide

/-- C4 (amended): a non-refund-like `CANCELLATION` on an existing row sets
`status = canceled` and stamps `canceledAt = now`; the plan is *set to the
plan derived from the event's product id* (so it is unchanged only when
that derivation matches the stored plan); `renewsAt` is set to the event
expiry when a truthy (non-zero) expiry is supplied and left unchanged
otherwise, and `startedAt` is untouched. -/
theorem C4_cancellation_updates (db : DB) (now : Int) (ev : RCEvent) (uid : String)
    (old : SubRow) (hty : ev.type = "CANCELLATION")
    (hcr : ev.cancel_reason ≠ some "CUSTOMER_SUPPORT")
    (hu : ev.app_user_id = some uid) (hne : uid ≠ "")
    (hold : findSub db.subs uid = some old) :
    ∃ r, findSub (revenuecatWebhook db now (some ev)).2.subs uid = some r ∧
      r.status = .canceled ∧ r.canceledAt = some now ∧
      r.plan = planFromProductId ev.product_id ∧
      r.renewsAt = (match renewsAtOf ev.expiration_at_ms with
                    | some e => some e
                    | none => old.renewsAt) ∧
      r.startedAt = old.startedAt := by
  simp only [webhook_cancel_eq db now ev uid hty hcr hu hne]
  obtain ⟨r, hfs, h1, h2, h3, h4, h5⟩ := cancelStep_row db now ev uid
  rw [hold] at h4 h5
  exact ⟨r, hfs, h2, h3, h1, h4, h5⟩

/-- Witness for C4 on a concrete cancellation carrying the product id and
no expiry: status becomes canceled, plan stays the derived `monthly`, and
`renewsAt` keeps the stored value. -/
theorem C4_cancellation_updates_witness :
    ∃ r, findSub (revenuecatWebhook dbSubMonthly 60
        (some { evBase with type := "CANCELLATION", expiration_at_ms := none })).2.subs "u1" = some r ∧
      r.status = .canceled ∧ r.canceledAt = some 60 ∧
      r.plan = planFromProductId ({ evBase with type := "CANCELLATION", expiration_at_ms := none } : RCEvent).product_id ∧
      r.renewsAt = (match renewsAtOf ({ evBase with type := "CANCELLATION", expiration_at_ms := none } : RCEvent).expiration_at_ms with
                    | some e => some e
                    | none => rowMonthlyActive.renewsAt) ∧
      r.startedAt = rowMonthlyActive.startedAt :=
  C4_cancellation_updates dbSubMonthly 60
    { evBase with type := "CANCELLATION", expiration_at_ms := none } "u1"
    rowMonthlyActive rfl (by decide) rfl (by decide) (by decide)

/-! ### Claim C5 -/

/-- C5 counterexample: an `INITIAL_PURCHASE` without an expiry delivered to
a user whose row has `canceledAt` and `renewsAt` set leaves both fields at
their old values — the update writes `canceledAt: undefined` and
`renewsAt: undefined`, which mongoose strips, so neither is cleared. -/
theorem C5_counterexample :
    (findSub (revenuecatWebhook dbSubCanceled 70
        (some { evBase with expiration_at_ms := none })).2.subs "u1").map SubRow.canceledAt =
      some (some 60) ∧
    (findSub (revenuecatWebhook dbSubCanceled 70
        (some { evBase with expiration_at_ms := none })).2.subs "u1").map SubRow.renewsAt =
      some (some 2000) ∧
    some (some 60) ≠ some (none : Option Int) := by decide

/-- C5 (amended): a purchase-like event with a resolvable user yields a row
with `plan` derived from the product id, `status = active` and a fresh
`startedAt`; `renewsAt` is set to the event expiry when a truthy (non-zero)
expiry is present and otherwise left at the stored value (absent on row
creation); `canceledAt` is left at the stored value (absent on row
creation), not cleared. -/
theorem C5_purchase_like_state (db : DB) (now : Int) (ev : RCEvent) (uid : String)
    (hty : isPurchaseLikeType ev.type = true) (hu : ev.app_user_id = some uid)
    (hne : uid ≠ "") :
    (revenuecatWebhook db now (some ev)).1 = .purchased ∧
    ∃ r, findSub (revenuecatWebhook db now (some ev)).2.subs uid = some r ∧
      r.plan = planFromProductId ev.product_id ∧
      r.status = .active ∧
      r.startedAt = some (startedAtOf ev.purchased_at_ms now) ∧
      r.renewsAt = (match renewsAtOf ev.expiration_at_ms with
                    | some v => some v
                    | none => (match findSub db.subs uid with
                               | some old => old.renewsAt
                               | none => none)) ∧
      r.canceledAt = (match findSub db.subs uid with
                      | some old => old.canceledAt
                      | none => none) := by
  simp only [webhook_purchase_eq db now ev uid hty hu hne]
  obtain ⟨r, hfs, h1, h2, _, h4, h5, h6⟩ := purchaseStep_row db now ev uid
  exact ⟨trivial, r, hfs, h1, h2, h4, h5, h6⟩

/-- Witness for C5: the baseline purchase event on an empty datastore
creates the active monthly row with `renewsAt = 2000`. -/
theorem C5_purchase_like_state_witness :
    (revenuecatWebhook emptyDB 50 (some evBase)).1 = .purchased ∧
    ∃ r, findSub (revenuecatWebhook emptyDB 50 (some evBase)).2.subs "u1" = some r ∧
      r.plan = planFromProductId evBase.product_id ∧
      r.status = .active ∧
      r.startedAt = some (startedAtOf evBase.purchased_at_ms 50) ∧
      r.renewsAt = (match renewsAtOf evBase.expiration_at_ms with
                    | some v => some v
                    | none => (match findSub emptyDB.subs "u1" with
                               | some old => old.renewsAt
                               | none => none)) ∧
      r.canceledAt = (match findSub emptyDB.subs "u1" with
                      | some old => old.canceledAt
                      | none => none) :=
  C5_purchase_like_state emptyDB 50 evBase "u1" (by decide) rfl (by decide)

/-! ### Claim C2 -/

/-- C2 counterexample: with a *present* product id that carries no plan
marker (`"com.app.credits"`), the caller-declared plan decides the outcome:
two activate requests identical except for `plan` yield `yearly` versus
`free` — the caller plan is not inert whenever a product id is present. -/
theorem C2_counterexample :
    jsTruthyStr (some "com.app.credits") = true ∧
    resultPlanOf (activate emptyDB 0 "u1"
        { bodyBase with productId := some "com.app.credits", plan := some Plan.yearly }).1 =
      some Plan.yearly ∧
    resultPlanOf (activate emptyDB 0 "u1"
        { bodyBase with productId := some "com.app.credits", plan := some Plan.free }).1 =
      some Plan.free ∧
    (some Plan.yearly : Option Plan) ≠ some Plan.free := by decide

/-- C2 (amended): whenever the product id derives a *non-free* plan, that
derived plan is stored and the caller-declared plan has no influence: two
valid activate requests that differ only in the caller plan field both
succeed with the derived plan.  (The caller plan is the fallback whenever
derivation yields `free` — product id absent *or* unmarked.) -/
theorem C2_derived_plan_wins (db : DB) (now : Int) (uid : String) (b : ActivateBody)
    (otherPlan : Option Plan) (hvalid : validActivateB b = true)
    (hderived : planFromProductId b.productId ≠ Plan.free) :
    ∃ p1 p2 db1 db2,
      activate db now uid b = (.ok p1, db1) ∧
      activate db now uid { b with plan := otherPlan } = (.ok p2, db2) ∧
      p1.plan = planFromProductId b.productId ∧ p2.plan = p1.plan := by
  obtain ⟨amt, hamt, hnn, heq⟩ := activate_of_valid db now uid b hvalid
  have hv2 : validActivateB { b with plan := otherPlan } = true := hvalid
  obtain ⟨amt2, hamt2, hnn2, heq2⟩ :=
    activate_of_valid db now uid { b with plan := otherPlan } hv2
  obtain ⟨p1, db1, happ1, hplan1⟩ := activateApply_plan db now uid b amt
  obtain ⟨p2, db2, happ2, hplan2⟩ :=
    activateApply_plan db now uid { b with plan := otherPlan } amt2
  refine ⟨p1, p2, db1, db2, heq.trans happ1, heq2.trans happ2, ?_, ?_⟩
  · rw [hplan1]
    unfold activatePlanOf
    rw [if_pos hderived]
  · rw [hplan2, hplan1]
    simp [activatePlanOf, hderived]

/-- Witness for C2: the yearly-marked `bodyBase` with a caller plan of
`free` still activates the yearly plan. -/
theorem C2_derived_plan_wins_witness :
    ∃ p1 p2 db1 db2,
      activate emptyDB 0 "u1" bodyBase = (.ok p1, db1) ∧
      activate emptyDB 0 "u1" { bodyBase with plan := some Plan.free } = (.ok p2, db2) ∧
      p1.plan = planFromProductId bodyBase.productId ∧ p2.plan = p1.plan :=
  C2_derived_plan_wins emptyDB 0 "u1" bodyBase (some Plan.free) (by decide) (by decide)

/-! ### Claim C3 -/

/-- C3 counterexample: on the *webhook* path the ledger write is
`$setOnInsert`-only, so redelivering the same `transaction_id` with a new
currency and purchase time leaves the stored `currency` and `purchasedAt`
at the first delivery's values — mutable fields are not overwritten. -/
theorem C3_counterexample :
    (findPay (revenuecatWebhook (revenuecatWebhook emptyDB 50 (some evBase)).2 60
        (some { evBase with currency := some "EUR", purchased_at_ms := some 5555 })).2.payments "t1").map PaymentRecord.currency =
      some "USD" ∧
    (findPay (revenuecatWebhook (revenuecatWebhook emptyDB 50 (some evBase)).2 60
        (some { evBase with currency := some "EUR", purchased_at_ms := some 5555 })).2.payments "t1").map PaymentRecord.purchasedAt =
      some 1000 ∧
    some "USD" ≠ some "EUR" := by decide

/-- C3 (amended): the two ledger paths differ.  On the activate path,
identity fields are insert-only, while `amountCents`, `currency`,
`purchasedAt` and `rawPayload` are overwritten on every delivery (and
`expiresAt` when its new value is defined).  On the webhook purchase path
the entire document is `$setOnInsert`, so a redelivery of a known
`transaction_id` leaves the ledger unchanged. -/
theorem C3_ledger_write_semantics (db : DB) (now : Int) (uid : String)
    (b : ActivateBody) (tid : String) (p : PaymentRecord) (amt : Int)
    (hv : validActivateB b = true) (hamt : b.amountCents = some amt)
    (htid : b.transactionId = some tid)
    (hp : findPay db.payments tid = some p) :
    (∃ p', findPay (activate db now uid b).2.payments tid = some p' ∧
      payIdentity p' = payIdentity p ∧
      p'.amountCents = amt ∧
      p'.currency = toUpperStr (b.currency.getD "") ∧
      p'.purchasedAt = now ∧
      p'.rawPayload = RawPayload.activate b ∧
      p'.expiresAt = (match activateExpiresAt b with
                      | some v => some v
                      | none => p.expiresAt)) ∧
    (∀ ev uid2, isPurchaseLikeType ev.type = true → ev.app_user_id = some uid2 →
      uid2 ≠ "" → ev.transaction_id = some tid →
      (revenuecatWebhook db now (some ev)).2.payments = db.payments) := by
  constructor
  · obtain ⟨amt0, hamt0, hnn0, heq⟩ := activate_of_valid db now uid b hv
    have hamt' : amt0 = amt := by
      rw [hamt] at hamt0
      exact (Option.some.injEq _ _ ▸ hamt0).symm
    subst hamt'
    have htid' : (activateLedgerWriteOf uid b amt0 now).transactionId = tid := by
      simp [activateLedgerWriteOf, htid]
    have hstep : (activate db now uid b).2.payments =
        activatePayUpsert db.payments (activateLedgerWriteOf uid b amt0 now) := by
      simp [heq, activateApply]
    have hfind' : findPay db.payments (activateLedgerWriteOf uid b amt0 now).transactionId =
        some p := by
      rw [htid']
      exact hp
    obtain ⟨hf2, _⟩ := activatePayUpsert_found db.payments
      (activateLedgerWriteOf uid b amt0 now) p hfind'
    rw [htid'] at hf2
    rw [hstep]
    refine ⟨applyActivateSet p (activateLedgerWriteOf uid b amt0 now), hf2, ?_, rfl, rfl, rfl, rfl, rfl⟩
    simp [payIdentity, applyActivateSet]
  · intro ev uid2 hty hu hne htid2
    simp only [webhook_purchase_eq db now ev uid2 hty hu hne]
    have hhas : hasPay db.payments tid = true := hasPay_true_of_findPay _ _ _ hp
    by_cases htne : tid = ""
    · simp [webhookPurchaseStep, htid2, htne]
    · simp [webhookPurchaseStep, htid2, htne, paymentUpsertInsertOnly, hhas]

/-- Witness for C3: a second activate with new amount/currency on
`dbAfterActivate` updates the mutable fields while keeping the identity of
`payFirst`. -/
theorem C3_ledger_write_semantics_witness :
    (∃ p', findPay (activate dbAfterActivate 20 "u1"
        { bodyBase with currency := some "gbp", amountCents := some 777 }).2.payments "t2" = some p' ∧
      payIdentity p' = payIdentity payFirst ∧
      p'.amountCents = 777 ∧
      p'.currency = toUpperStr (({ bodyBase with currency := some "gbp", amountCents := some 777 } : ActivateBody).currency.getD "") ∧
      p'.purchasedAt = 20 ∧
      p'.rawPayload = RawPayload.activate { bodyBase with currency := some "gbp", amountCents := some 777 } ∧
      p'.expiresAt = (match activateExpiresAt { bodyBase with currency := some "gbp", amountCents := some 777 } with
                      | some v => some v
                      | none => payFirst.expiresAt)) ∧
    (∀ ev uid2, isPurchaseLikeType ev.type = true → ev.app_user_id = some uid2 →
      uid2 ≠ "" → ev.transaction_id = some "t2" →
      (revenuecatWebhook dbAfterActivate 20 (some ev)).2.payments =
        dbAfterActivate.payments) :=
  C3_ledger_write_semantics dbAfterActivate 20 "u1"
    { bodyBase with currency := some "gbp", amountCents := some 777 } "t2"
    payFirst 777 (by decide) rfl rfl (by decide)

/-! ### Claim C6 -/

/-- C6: starting from a ledger with no row for `tid`, any non-empty
sequence of deliveries that all carry `tid` and pass admission leaves
exactly one ledger row for `tid`, whose identity fields are those stamped
by the first delivery; and replaying an identical purchase-like event after
it has set `status = active` yields `status = active` again with the very
same row (idempotent convergence, not a double-applied state). -/
theorem C6_ledger_exactly_once (db0 : DB) (now : Int) (tid : String) (d : Delivery)
    (ds : List Delivery) (h0 : hasPay db0.payments tid = false)
    (hd : deliveryWritesB d tid = true)
    (hds : ∀ x ∈ ds, deliveryWritesB x tid = true) :
    (countPay (runDeliveries db0 now (d :: ds)).payments tid = 1 ∧
      ∃ p, findPay (runDeliveries db0 now (d :: ds)).payments tid = some p ∧
        payIdentity p = deliveryIdentity d) ∧
    (∀ ev uid, isPurchaseLikeType ev.type = true → ev.app_user_id = some uid →
      uid ≠ "" →
      ∃ r, findSub (revenuecatWebhook db0 now (some ev)).2.subs uid = some r ∧
        r.status = .active ∧
        findSub (revenuecatWebhook (revenuecatWebhook db0 now (some ev)).2 now
          (some ev)).2.subs uid = some r) := by
  constructor
  · exact runDeliveries_preserves now tid (deliveryIdentity d) ds
      (stepDelivery db0 now d) hds (stepDelivery_establishes db0 now tid d h0 hd)
  · intro ev uid hty hu hne
    simp only [webhook_purchase_eq db0 now ev uid hty hu hne]
    simp only [webhook_purchase_eq (webhookPurchaseStep db0 now ev uid) now ev uid hty hu hne]
    have h1 := findSub_findOneAndUpdateSub db0.subs uid (webhookPurchaseUpd ev now)
    have h2 := findSub_findOneAndUpdateSub
      (findOneAndUpdateSub db0.subs uid (webhookPurchaseUpd ev now)).2 uid
      (webhookPurchaseUpd ev now)
    have h4 : applySubSet (findOneAndUpdateSub db0.subs uid (webhookPurchaseUpd ev now)).1
        (webhookPurchaseUpd ev now) =
        (findOneAndUpdateSub db0.subs uid (webhookPurchaseUpd ev now)).1 := by
      rw [findOneAndUpdateSub_fst db0.subs uid (webhookPurchaseUpd ev now)]
      cases findSub db0.subs uid with
      | none => exact applySubSet_subInsertDoc uid (webhookPurchaseUpd ev now)
      | some old => exact applySubSet_applySubSet old (webhookPurchaseUpd ev now)
    have h3 : (findOneAndUpdateSub (findOneAndUpdateSub db0.subs uid
          (webhookPurchaseUpd ev now)).2 uid (webhookPurchaseUpd ev now)).1 =
        applySubSet (findOneAndUpdateSub db0.subs uid (webhookPurchaseUpd ev now)).1
          (webhookPurchaseUpd ev now) := by
      rw [findOneAndUpdateSub_fst, h1]
    rw [h3, h4] at h2
    refine ⟨(findOneAndUpdateSub db0.subs uid (webhookPurchaseUpd ev now)).1, ?_, ?_, ?_⟩
    · simpa [webhookPurchaseStep] using h1
    · rw [findOneAndUpdateSub_fst db0.subs uid (webhookPurchaseUpd ev now)]
      cases findSub db0.subs uid with
      | none => simp [subInsertDoc, webhookPurchaseUpd]
      | some old => simp [applySubSet, webhookPurchaseUpd]
    · simpa [webhookPurchaseStep] using h2

/-- Witness for C6: delivering `evBase` twice from an empty datastore
leaves one `t1` ledger row stamped with the first delivery's identity, and
the second application converges on the same active row. -/
theorem C6_ledger_exactly_once_witness :
    (countPay (runDeliveries emptyDB 50 [.hook evBase, .hook evBase]).payments "t1" = 1 ∧
      ∃ p, findPay (runDeliveries emptyDB 50 [.hook evBase, .hook evBase]).payments "t1" = some p ∧
        payIdentity p = deliveryIdentity (.hook evBase)) ∧
    (∃ r, findSub (revenuecatWebhook emptyDB 50 (some evBase)).2.subs "u1" = some r ∧
      r.status = .active ∧
      findSub (revenuecatWebhook (revenuecatWebhook emptyDB 50 (some evBase)).2 50
        (some evBase)).2.subs "u1" = some r) :=
  ⟨(C6_ledger_exactly_once emptyDB 50 "t1" (.hook evBase) [.hook evBase]
      (by decide) (by decide) (by decide)).1,
    (C6_ledger_exactly_once emptyDB 50 "t1" (.hook evBase) [.hook evBase]
      (by decide) (by decide) (by decide)).2 evBase "u1" (by decide) rfl (by decide)⟩

end AffirmDreams
